import Mathlib

/-!
Shallow embedding of the LIDARGUI LED-activation engine and its serial
protocol layer, translated from the Python sources:

  * `src/data/blink_managermentes.py` — the `Block` state machine with
    cooldown / neighbor-suppression bookkeeping and the `BlinkManager`
    ("mentes" variant, suffix-free names below);
  * `src/data/blink_manager.py` — the older `BlinkManager` variant
    (names carry a `_v1` suffix below);
  * `src/network/serial_protocol.py` — frame extraction over the byte
    buffer and per-command processing / acknowledgements.

Python floats used as timestamps and durations are modelled as integer
milliseconds (plain `Int`, an order-isomorphic rescaling: the source's
`0.5`, `1`, `2`, `0.1` seconds become `500`, `1000`, `2000`, `100`
below), Python ints as `Int`, dictionaries as functions into `Option`,
and `defaultdict` reads through `Option.getD`.  Side effects (LED strip writes, serial
writes, task spawns / cancellations, the completion flash and the
completion notification) are recorded in an explicit effect log.
-/

namespace LidarGui

/-- Python-style whitespace recognised by `str.strip()` (ASCII range). -/
def is_py_space (c : Char) : Bool :=
  c = ' ' || c = '\t' || c = '\n' || c = '\r' || c = '\x0b' || c = '\x0c'

/-- `str.strip()` on a character list. -/
def py_strip (s : List Char) : List Char :=
  ((s.dropWhile is_py_space).reverse.dropWhile is_py_space).reverse

/-- Value of a decimal digit character. -/
def digit_val (c : Char) : Nat := c.toNat - '0'.toNat

/-- Remaining digits of a Python integer literal: digits with single
underscores allowed between digits (`int("1_0") = 10`, `int("1_") `
and `int("1__0")` raise `ValueError`). -/
def py_digits_rest : Nat → List Char → Option Nat
  | acc, [] => some acc
  | acc, '_' :: d :: rest =>
      if d.isDigit then py_digits_rest (10 * acc + digit_val d) rest else none
  | _, ['_'] => none
  | acc, c :: rest =>
      if c.isDigit then py_digits_rest (10 * acc + digit_val c) rest else none

/-- A nonempty digit group (first character must be a digit). -/
def py_digits : List Char → Option Nat
  | [] => none
  | c :: rest => if c.isDigit then py_digits_rest (digit_val c) rest else none

/-- Optional sign in front of the digits. -/
def py_int_signed : List Char → Option Int
  | '+' :: rest => (py_digits rest).map (fun n => (n : Int))
  | '-' :: rest => (py_digits rest).map (fun n => -(n : Int))
  | s => (py_digits s).map (fun n => (n : Int))

/-- Python `int(s)` on a string: strips whitespace, then an optional
sign and a digit group; `none` models the `ValueError` case. -/
def py_int (s : List Char) : Option Int := py_int_signed (py_strip s)

/-- Decimal digit character. -/
def digit_char (n : Nat) : Char := Char.ofNat ('0'.toNat + n)

/-- Digits of `n`, most significant first, computed with fuel `n+1`
(always enough since the number of digits is at most `n+1`). -/
def nat_chars_aux : Nat → Nat → List Char
  | 0, _ => []
  | fuel + 1, n =>
      if n < 10 then [digit_char n]
      else nat_chars_aux fuel (n / 10) ++ [digit_char (n % 10)]

/-- Decimal rendering of a natural number, as Python `str(n)`. -/
def nat_chars (n : Nat) : List Char := nat_chars_aux (n + 1) n

/-- Decimal rendering of an integer, as Python `str(n)`. -/
def int_chars : Int → List Char
  | Int.ofNat n => nat_chars n
  | Int.negSucc m => '-' :: nat_chars (m + 1)

/-- `t` is a prefix of the second list (Python `str.startswith`). -/
def starts_with_chars : List Char → List Char → Bool
  | [], _ => true
  | _ :: _, [] => false
  | c :: t, d :: s => c = d && starts_with_chars t s

/-!
## Frame codec (`SerialProtocol.process_buffer`, framing part)

The Python code repeatedly applies the regex `#(.*?)#` to the buffer
(`re.finditer`): leftmost, non-overlapping, lazy matches whose inner
characters cannot be `'\n'` (regex `.` does not match newlines).  The
processed part of the buffer — everything up to the end of the last
match — is dropped; if no match is found and the buffer is longer than
`BUFFER_MAX_SIZE = 4096` the whole buffer is discarded.
-/

/-- Scan for the payload of a lazy `#(.*?)#` match: the shortest run of
non-`'#'`, non-newline characters followed by a closing `'#'`.  Returns
the payload and the rest of the input after the closing `'#'`. -/
def take_payload : List Char → Option (List Char × List Char)
  | [] => none
  | c :: rest =>
      if c = '#' then some ([], rest)
      else if c = '\n' then none
      else
        match take_payload rest with
        | some (p, r) => some (c :: p, r)
        | none => none

/-- Find the leftmost `#(.*?)#` match: try each `'#'` as an opening
delimiter and take the first position from which a payload closes. -/
def find_frame : List Char → Option (List Char × List Char)
  | [] => none
  | c :: rest =>
      if c = '#' then
        match take_payload rest with
        | some pr => some pr
        | none => find_frame rest
      else find_frame rest

/-- All non-overlapping matches in order, with the input remaining after
the last match.  Each match consumes at least two characters, so fuel
equal to the buffer length suffices. -/
def find_frames_aux : Nat → List Char → List (List Char) × List Char
  | 0, buf => ([], buf)
  | fuel + 1, buf =>
      match find_frame buf with
      | none => ([], buf)
      | some (p, rest) =>
          let pr := find_frames_aux fuel rest
          (p :: pr.1, pr.2)

/-- `list(self.pattern.finditer(self.buffer))`, as payload contents plus
the buffer suffix after the end of the last match. -/
def find_frames (buf : List Char) : List (List Char) × List Char :=
  find_frames_aux buf.length buf

/-- `SerialProtocol.BUFFER_MAX_SIZE`. -/
def BUFFER_MAX_SIZE : Nat := 4096

/-- The framing behaviour of `SerialProtocol.process_buffer`: the parsed
messages (payloads, in arrival order) and the new buffer.  With at least
one match the buffer keeps only what follows the last match; with no
match the buffer is cleared when it exceeds `BUFFER_MAX_SIZE`. -/
def process_buffer_frames (buf : List Char) : List (List Char) × List Char :=
  if (find_frames buf).1.isEmpty then
    if BUFFER_MAX_SIZE < buf.length then ([], []) else ([], buf)
  else find_frames buf

example : process_buffer_frames "#DETECTED:7#".toList = (["DETECTED:7".toList], []) := by decide
example : process_buffer_frames "#DETECTED:7##STOP#".toList
    = (["DETECTED:7".toList, "STOP".toList], []) := by decide
example : process_buffer_frames "ab#X#cd".toList = (["X".toList], "cd".toList) := by decide
example : process_buffer_frames "abcd".toList = ([], "abcd".toList) := by decide

example : py_int "7".toList = some 7 := by decide
example : py_int " -42 ".toList = some (-42) := by decide
example : py_int "7a".toList = none := by decide
example : py_int "".toList = none := by decide
example : int_chars 7 = "7".toList := by decide
example : int_chars (-30) = "-30".toList := by decide

/-!
## Data model

`Block` carries the fields of `blink_managermentes.Block`.  The `Block`
class of `blink_manager.py` ("v1") has only `led_sequence`, `leds`,
`current_index` and `green_counts`; the `_v1` operations below read and
write only those fields, and the cooldown / suppression fields are
carried inert.
-/

/-- RGB colors, Python tuples of ints. -/
abbrev Color := Int × Int × Int

/-- Observable side effects of the engine, in emission order. -/
inductive Effect
  /-- `strip.setPixelColor` + `strip.show` for one pin. -/
  | ledWrite (strip : Nat) (idx : Int) (color : Color)
  /-- Bytes written on the serial transport. -/
  | serialWrite (bytes : List Char)
  /-- `asyncio.create_task(handle_incorrect_detection(pin))` or the task
  spawned inside `handle_incorrect_detection` itself. -/
  | spawnIncorrectTask (pin : Int)
  /-- `task.cancel()` on the supervisor registered for `pin`. -/
  | cancelTask (pin : Int)
  /-- The three green/off completion flash cycles of
  `handle_block_completion` (render detail abstracted). -/
  | completionFlash
  /-- POST to the `block_completed` sink. -/
  | notifyClients
  deriving DecidableEq, Repr

/-- `self.mode`: `None`, `'single'` or `'block'` (modelled with
`Option PMode`). -/
inductive PMode
  | single
  | block
  deriving DecidableEq, Repr

/-- One entry of a `led_sequence`: `{'shelf_id': …, 'led_id': …}` (the
`int(...)` conversion of `led_id` is taken as already done). -/
structure LedInfo where
  shelf_id : String
  led_id : Int
  deriving DecidableEq, Repr

/-- `blink_managermentes.Block`. -/
structure Block where
  led_sequence : List LedInfo
  leds : List Int
  current_index : Nat
  green_counts : Int → Int
  last_correct_detection_time : Int
  processed_leds : Int → Option Int
  cooldown : Int
  per_led_cooldown : Int
  ignored_leds : Int → Bool

/-- `BlinkManager` state (superset of both variants: `debounce_time` and
`last_detection_time` exist only in the mentes variant). -/
structure BlinkManager where
  LED_COUNT : Int
  num_strips : Nat
  shelf_led_count : Int
  blocks : List Block
  active_led_pins : Int → Option Int
  timeout : Int
  incorrect_leds : List Int
  incorrect_led_last_detect_time : Int → Option Int
  mode : Option PMode
  current_block : Option Block
  controlled_values : String → Option Int
  led_to_shelf : Int → Option String
  has_serial : Bool
  debounce_time : Int
  last_detection_time : Int → Option Int

/-- Point update of an optional-valued map (dictionary assignment). -/
def updOpt (f : Int → Option Int) (k : Int) (v : Int) : Int → Option Int :=
  fun q => if q = k then some v else f q

/-- Point removal from an optional-valued map (`dict.pop`). -/
def popOpt (f : Int → Option Int) (k : Int) : Int → Option Int :=
  fun q => if q = k then none else f q

/-- Point update of an integer-valued map (`defaultdict(int)`). -/
def updInt (f : Int → Int) (k : Int) (v : Int) : Int → Int :=
  fun q => if q = k then v else f q

/-- Add a pin to a set of pins (`set.add` / `set.update`). -/
def addPin (f : Int → Bool) (k : Int) : Int → Bool :=
  fun q => if q = k then true else f q

/-- `BlinkManager.get_controlled_value`: `controlled_values.get(shelf_id, 0)`. -/
def BlinkManager.get_controlled_value (m : BlinkManager) (shelf_id : String) : Int :=
  (m.controlled_values shelf_id).getD 0

/-- Values accepted at the `set_led_color` public interface (internal
callers pass ints; HTTP/serial adapters may pass strings). -/
inductive PyVal
  | int (n : Int)
  | str (s : List Char)
  deriving DecidableEq, Repr

/-- Exceptions that can arise inside `set_led_color`. -/
inductive PyExn
  | valueError
  | hwError
  deriving DecidableEq, Repr

/-- `int(led_pin)`: identity on ints, Python `int()` parse on strings
(`.error .valueError` when it does not parse). -/
def py_int_of : PyVal → Except PyExn Int
  | PyVal.int n => Except.ok n
  | PyVal.str s =>
      match py_int s with
      | some n => Except.ok n
      | none => Except.error PyExn.valueError

/-- Strip index of a pin: strip 0 for pins `≤ LED_COUNT`, else strip 1. -/
def BlinkManager.strip_index (m : BlinkManager) (pin : Int) : Nat :=
  if pin ≤ m.LED_COUNT then 0 else 1

/-- Per-strip pixel index of a pin. -/
def BlinkManager.adjusted_led (m : BlinkManager) (pin : Int) : Int :=
  if pin ≤ m.LED_COUNT then pin - 1 else pin - m.LED_COUNT - 1

/-- The guarded hardware write inside `set_led_color`'s inner `try`:
`setPixelColor` followed by `strip.show`, which together either succeed
(one recorded write) or raise.  When the hardware raises, the attempted
write is not recorded in the effect log. -/
def strip_write (m : BlinkManager) (pin : Int) (color : Color) (hwThrows : Bool) :
    Except PyExn (List Effect) :=
  if hwThrows then Except.error PyExn.hwError
  else Except.ok [Effect.ledWrite (m.strip_index pin) (m.adjusted_led pin) color]

/-- `BlinkManager.set_led_color` (identical in both variants): parse the
pin (`except ValueError: return`), bounds-check it against
`LED_COUNT * len(stripall)`, and perform the hardware write under a
`try/except Exception` that only logs.  The `Except` result shows which
exceptions escape to the caller: none do. -/
def BlinkManager.set_led_color (m : BlinkManager) (led_pin : PyVal) (color : Color)
    (hwThrows : Bool) : Except PyExn (List Effect) :=
  match py_int_of led_pin with
  | Except.error _ => Except.ok []
  | Except.ok pin =>
      if pin < 1 ∨ m.LED_COUNT * (m.num_strips : Int) < pin then Except.ok []
      else
        match strip_write m pin color hwThrows with
        | Except.ok effs => Except.ok effs
        | Except.error _ => Except.ok []

/-- Internal `set_led_color` call on an integer pin with working
hardware (how the engine code invokes it). -/
def BlinkManager.set_led (m : BlinkManager) (pin : Int) (color : Color) : List Effect :=
  ((m.set_led_color (PyVal.int pin) color false).toOption).getD []

/-- `BlinkManager.send_active_led`: writes `#<pin>#\n` when a serial
protocol is attached, logs an error otherwise. -/
def BlinkManager.send_active_led (m : BlinkManager) (pin : Int) : List Effect :=
  if m.has_serial then [Effect.serialWrite ('#' :: int_chars pin ++ ['#', '\n'])] else []

/-- `Block.determine_color`: green iff the pin's green count is
positive, otherwise off. -/
def Block.determine_color (b : Block) (led_pin : Int) : Color :=
  if 0 < b.green_counts led_pin then (0, 255, 0) else (0, 0, 0)

/-!
## Engine operations
-/

/-- `set_all_leds_color`: every pixel of every strip is written. -/
def BlinkManager.set_all_leds_color (m : BlinkManager) (color : Color) : List Effect :=
  (List.range m.num_strips).flatMap fun s =>
    (List.range m.LED_COUNT.toNat).map fun i => Effect.ledWrite s (i : Int) color

/-- `turn_off_all_leds` (identical in both variants): renders all LEDs
off, clears `active_led_pins`, `blocks`, `mode`, `current_block` and
`controlled_values`, cancels every incorrect-LED task and clears both
supervisor registries.  `led_to_shelf` and (in the mentes variant)
`last_detection_time` are left untouched. -/
def BlinkManager.turn_off_all_leds (m : BlinkManager) : BlinkManager × List Effect :=
  ({ m with
      active_led_pins := fun _ => none
      blocks := []
      mode := none
      current_block := none
      controlled_values := fun _ => none
      incorrect_leds := []
      incorrect_led_last_detect_time := fun _ => none },
   m.set_all_leds_color (0, 0, 0) ++ m.incorrect_leds.map Effect.cancelTask)

/-- `handle_block_completion`: a no-op warning when no current block;
otherwise the three green/off flash cycles over the block's shelves
(abstracted into one `completionFlash` effect), then the full
`turn_off_all_leds` reset, then the client notification. -/
def BlinkManager.handle_block_completion (m : BlinkManager) : BlinkManager × List Effect :=
  match m.current_block with
  | none => (m, [])
  | some _ =>
      let r := m.turn_off_all_leds
      (r.1, Effect.completionFlash :: r.2 ++ [Effect.notifyClients])

/-- Cancel and remove the incorrect-detection entry for `pin` when one
exists (the cleanup block repeated twice inside the correct branch of
`Block.handle_detection`). -/
def BlinkManager.clear_incorrect (m : BlinkManager) (pin : Int) : BlinkManager × List Effect :=
  if pin ∈ m.incorrect_leds then
    ({ m with
        incorrect_leds := m.incorrect_leds.erase pin
        incorrect_led_last_detect_time := popOpt m.incorrect_led_last_detect_time pin },
     [Effect.cancelTask pin])
  else (m, [])

/-- The trailing cleanup of `Block.handle_detection`: drop every
`processed_leds` entry older than 2 seconds and discard the
corresponding `ignored_leds` membership. -/
def Block.sweep_processed (b : Block) (now : Int) : Block :=
  let stale : Int → Bool := fun led =>
    match b.processed_leds led with
    | some t => decide (2000 < now - t)
    | none => false
  { b with
      processed_leds := fun led => if stale led then none else b.processed_leds led
      ignored_leds := fun led => if stale led then false else b.ignored_leds led }

/-- `blink_managermentes.Block.handle_detection`, one call at time
`now`.  Returns the updated block, the updated manager and the effect
log.  Branches, in source order: already-complete guard, per-LED
cooldown discard, correct detection (block-cooldown discard or advance
/ completion), ignored-neighbor discard, incorrect dispatch; the
`processed_leds` sweep runs only on the paths that fall through to the
end of the method body. -/
def Block.handle_detection (b : Block) (detected_led : Int) (now : Int)
    (m : BlinkManager) : Block × BlinkManager × List Effect :=
  if b.leds.length ≤ b.current_index then (b, m, [])
  else if now - (b.processed_leds detected_led).getD 0 < b.per_led_cooldown then (b, m, [])
  else if detected_led = b.leds.getD b.current_index 0 then
    -- correct detection (`expected_led = self.leds[self.current_index]`)
    if now - b.last_correct_detection_time < b.cooldown then (b, m, [])
    else
      let offE := m.set_led detected_led (0, 0, 0)
      let b2 := { b with
        processed_leds := updOpt b.processed_leds detected_led now
        last_correct_detection_time := now
        green_counts :=
          if 0 < b.green_counts detected_led then
            updInt b.green_counts detected_led (b.green_counts detected_led - 1)
          else b.green_counts }
      let b3 := { b2 with
        ignored_leds := addPin (addPin b2.ignored_leds (detected_led - 1)) (detected_led + 1)
        processed_leds :=
          updOpt (updOpt b2.processed_leds (detected_led - 1) now) (detected_led + 1) now }
      let mc := m.clear_incorrect detected_led
      let b4 := { b3 with current_index := b.current_index + 1 }
      if b.current_index + 1 < b.leds.length then
        -- `self.current_index += 1` followed by `if self.current_index < len(self.leds)`
        let current_led := b.leds.getD (b.current_index + 1) 0
        let mc2 := mc.1.clear_incorrect current_led
        let b5 := { b4 with
          green_counts := updInt b4.green_counts current_led (b4.green_counts current_led + 1) }
        (b5.sweep_processed now, mc2.1,
          offE ++ mc.2 ++ mc2.2 ++ mc2.1.set_led current_led (0, 255, 0)
            ++ mc2.1.send_active_led current_led)
      else
        let m1 := { mc.1 with mode := none }
        let r := m1.handle_block_completion
        (b4.sweep_processed now, { r.1 with current_block := none }, offE ++ mc.2 ++ r.2)
  else if b.ignored_leds detected_led then (b, m, [])
  else (b.sweep_processed now, m, [Effect.spawnIncorrectTask detected_led])

/-- `blink_manager.Block.handle_detection` (v1): no cooldowns, no
neighbor suppression, no incorrect-entry cleanup, no sweep. -/
def Block.handle_detection_v1 (b : Block) (detected_led : Int)
    (m : BlinkManager) : Block × BlinkManager × List Effect :=
  if b.leds.length ≤ b.current_index then (b, m, [])
  else if detected_led = b.leds.getD b.current_index 0 then
    let offE := m.set_led detected_led (0, 0, 0)
    let b1 := { b with
      green_counts :=
        if 0 < b.green_counts detected_led then
          updInt b.green_counts detected_led (b.green_counts detected_led - 1)
        else b.green_counts }
    let b2 := { b1 with current_index := b.current_index + 1 }
    if b.current_index + 1 < b.leds.length then
      let current_led := b.leds.getD (b.current_index + 1) 0
      let b3 := { b2 with
        green_counts := updInt b2.green_counts current_led (b2.green_counts current_led + 1) }
      (b3, m, offE ++ m.set_led current_led (0, 255, 0) ++ m.send_active_led current_led)
    else
      let m1 := { m with mode := none }
      let r := m1.handle_block_completion
      (b2, { r.1 with current_block := none }, offE ++ r.2)
  else (b, m, [Effect.spawnIncorrectTask detected_led])

/-!
## Block initialisation and `add_block`
-/

/-- Loop body of `blink_managermentes.Block.initialize_block`: append the
shelf-adjusted pin, bump the green count on the cursor position, render
through `update_led_color` (i.e. `determine_color`), and announce the
cursor pin over serial.  `idx` is the `enumerate` counter. -/
def Block.init_loop (m : BlinkManager) : Nat → List LedInfo → Block → Block × List Effect
  | _, [], b => (b, [])
  | idx, info :: rest, b =>
      let adjusted_led := info.led_id + m.get_controlled_value info.shelf_id
      let b1 := { b with leds := b.leds ++ [adjusted_led] }
      let b2 :=
        if idx = b1.current_index then
          { b1 with green_counts :=
              updInt b1.green_counts adjusted_led (b1.green_counts adjusted_led + 1) }
        else b1
      let colE := m.set_led adjusted_led (b2.determine_color adjusted_led)
      let sendE := if idx = b2.current_index then m.send_active_led adjusted_led else []
      let r := Block.init_loop m (idx + 1) rest b2
      (r.1, colE ++ sendE ++ r.2)

/-- `blink_managermentes.Block.initialize_block`. -/
def Block.initialize_block (b : Block) (m : BlinkManager) : Block × List Effect :=
  Block.init_loop m 0 b.led_sequence b

/-- Loop body of `blink_manager.Block.initialize_block` (v1): same as the
mentes loop except that the chosen color (green on the cursor position,
off elsewhere) is written first and `update_led_color` re-renders it. -/
def Block.init_loop_v1 (m : BlinkManager) : Nat → List LedInfo → Block → Block × List Effect
  | _, [], b => (b, [])
  | idx, info :: rest, b =>
      let adjusted_led := info.led_id + m.get_controlled_value info.shelf_id
      let b1 := { b with leds := b.leds ++ [adjusted_led] }
      let b2 :=
        if idx = b1.current_index then
          { b1 with green_counts :=
              updInt b1.green_counts adjusted_led (b1.green_counts adjusted_led + 1) }
        else b1
      let chosen : Color := if idx = b2.current_index then (0, 255, 0) else (0, 0, 0)
      let colE0 := m.set_led adjusted_led chosen
      let colE := m.set_led adjusted_led (b2.determine_color adjusted_led)
      let sendE := if idx = b2.current_index then m.send_active_led adjusted_led else []
      let r := Block.init_loop_v1 m (idx + 1) rest b2
      (r.1, colE0 ++ colE ++ sendE ++ r.2)

/-- `blink_manager.Block.initialize_block` (v1). -/
def Block.initialize_block_v1 (b : Block) (m : BlinkManager) : Block × List Effect :=
  Block.init_loop_v1 m 0 b.led_sequence b

/-- A freshly constructed `Block(led_sequence, cooldown=1,
per_led_cooldown=0.5)`. -/
def Block.new (led_sequence : List LedInfo) : Block :=
  { led_sequence := led_sequence
    leds := []
    current_index := 0
    green_counts := fun _ => 0
    last_correct_detection_time := 0
    processed_leds := fun _ => none
    cooldown := 1000
    per_led_cooldown := 500
    ignored_leds := fun _ => false }

/-- The `led_to_shelf` map after registering every entry of a
`led_sequence` (the first loop of `add_block`). -/
def register_led_to_shelf (m : BlinkManager) (led_sequence : List LedInfo) :
    Int → Option String :=
  led_sequence.foldl
    (fun f info => fun q =>
      if q = info.led_id + m.get_controlled_value info.shelf_id then some info.shelf_id
      else f q)
    m.led_to_shelf

/-- Errors surfaced by engine entry points.  The spec's `ConflictError`
is listed so that its absence from every result is expressible. -/
inductive EngineError
  | conflictError
  deriving DecidableEq, Repr

/-- `blink_managermentes.BlinkManager.add_block`: under the lock, if a
block is already being processed, log a warning and return — no
exception, no state change.  Otherwise store the controlled values,
register the led-to-shelf mapping, build and initialise a `Block`,
append it and make it current. -/
def BlinkManager.add_block (m : BlinkManager) (led_sequence : List LedInfo)
    (controlled_values : String → Option Int) :
    Except EngineError (BlinkManager × List Effect) :=
  if m.mode = some PMode.block then Except.ok (m, [])
  else
    let m1 := { m with controlled_values := controlled_values }
    let m2 := { m1 with led_to_shelf := register_led_to_shelf m1 led_sequence }
    let r := (Block.new led_sequence).initialize_block m2
    Except.ok
      ({ m2 with
          blocks := m2.blocks ++ [r.1]
          mode := some PMode.block
          current_block := some r.1 },
       r.2)

/-- `blink_manager.BlinkManager.add_block` (v1): no conflict check at
all — the new block is built and installed over whatever was active. -/
def BlinkManager.add_block_v1 (m : BlinkManager) (led_sequence : List LedInfo)
    (controlled_values : String → Option Int) :
    Except EngineError (BlinkManager × List Effect) :=
  let m1 := { m with controlled_values := controlled_values }
  let m2 := { m1 with led_to_shelf := register_led_to_shelf m1 led_sequence }
  let r := (Block.new led_sequence).initialize_block_v1 m2
  Except.ok
    ({ m2 with
        blocks := m2.blocks ++ [r.1]
        mode := some PMode.block
        current_block := some r.1 },
     r.2)

/-!
## Incorrect-detection entry points
-/

/-- `blink_managermentes.BlinkManager.handle_incorrect_detection`: under
the lock, no-op when the pin is in the current block's ignored set and
still within the 2-second suppression window, or when the pin is now
the expected pin; otherwise stamp the last-detection time and spawn a
supervisor task when none is registered. -/
def BlinkManager.handle_incorrect_detection (m : BlinkManager) (led_pin : Int)
    (now : Int) : BlinkManager × List Effect :=
  let ignoredCase : Bool :=
    match m.current_block with
    | some b =>
        b.ignored_leds led_pin && decide (now - (b.processed_leds led_pin).getD 0 < 2000)
    | none => false
  if ignoredCase then (m, [])
  else
    let expected_led : Option Int := m.current_block.map fun b => b.leds.getD b.current_index 0
    if some led_pin = expected_led then (m, [])
    else
      let m1 := { m with
        incorrect_led_last_detect_time := updOpt m.incorrect_led_last_detect_time led_pin now }
      if led_pin ∈ m1.incorrect_leds then (m1, [])
      else
        ({ m1 with incorrect_leds := m1.incorrect_leds ++ [led_pin] },
         [Effect.spawnIncorrectTask led_pin])

/-- `blink_manager.BlinkManager.handle_incorrect_detection` (v1): no
guards — always stamps the last-detection time, spawns when no task is
registered. -/
def BlinkManager.handle_incorrect_detection_v1 (m : BlinkManager) (led_pin : Int)
    (now : Int) : BlinkManager × List Effect :=
  let m1 := { m with
    incorrect_led_last_detect_time := updOpt m.incorrect_led_last_detect_time led_pin now }
  if led_pin ∈ m1.incorrect_leds then (m1, [])
  else
    ({ m1 with incorrect_leds := m1.incorrect_leds ++ [led_pin] },
     [Effect.spawnIncorrectTask led_pin])

/-!
## Per-command processing (`SerialProtocol.process_buffer`, dispatch part)
-/

/-- `SerialProtocol.ACK_FORMAT = '#{}+#\n'` applied to a content
string: the bytes written back on the transport. -/
def ack_format (content : List Char) : List Char :=
  '#' :: content ++ ['+', '#', '\n']

/-- The pin set of the currently active block as read by the DETECTED
branch: the current block's `leds` when `mode == 'block'` and a current
block exists, otherwise empty. -/
def active_block_leds (m : BlinkManager) : List Int :=
  match m.mode, m.current_block with
  | some PMode.block, some b => b.leds
  | _, _ => []

/-- `SerialProtocol.DETECTED_PREFIX`. -/
def detected_tag : List Char := "DETECTED:".toList

/-- The engine calls a processed command dispatches to (the calls
themselves are modelled by the `BlinkManager` operations above). -/
inductive SerialAction
  | detect (n : Int)
  | incorrect (n : Int)
  | stopBlinking
  | addBlockCmd (ns : List Int)
  | singleMode (n : Int)
  deriving DecidableEq, Repr

/-- Processing of one extracted command (`match.group(1)`) against the
manager state: returns the acknowledgement bytes written on the
transport and the dispatched engine calls.  Branches in source order:
`DETECTED:<int>` (reply `CORRECT`/`FALSE` by membership in the active
block's pin set, `INVALID_DETECTION` when the argument does not parse),
`STOP` (case-insensitive), and the legacy comma-separated pin list
(block when several pins, single mode when one, nothing when none).
The explicit `.strip()` before `int()` in the DETECTED branch is
subsumed by the strip `int()` itself performs. -/
def process_command (m : BlinkManager) (raw : List Char) :
    List Char × List SerialAction :=
  let content := py_strip raw
  if starts_with_chars detected_tag content then
    match py_int (content.drop detected_tag.length) with
    | some n =>
        if n ∈ active_block_leds m then
          (ack_format ("CORRECT:".toList ++ int_chars n), [SerialAction.detect n])
        else
          (ack_format ("FALSE:".toList ++ int_chars n), [SerialAction.incorrect n])
    | none => (ack_format "INVALID_DETECTION".toList, [])
  else if content.map Char.toUpper = "STOP".toList then
    (ack_format "STOP".toList, [SerialAction.stopBlinking])
  else
    match (content.splitOn ',').filterMap py_int with
    | [] => ([], [])
    | [p] => (ack_format (int_chars p), [SerialAction.singleMode p])
    | ps => (ack_format (List.intercalate [','] (ps.map int_chars)), [SerialAction.addBlockCmd ps])

/-- A sequence of `Block.handle_detection` calls (mentes), threading the
block and the manager through timed detection events. -/
def run_detections : Block → BlinkManager → List (Int × Int) → Block × BlinkManager
  | b, m, [] => (b, m)
  | b, m, (t, p) :: evs =>
      let r := b.handle_detection p t m
      run_detections r.1 r.2.1 evs

/-!
## Concrete states used by witnesses and counterexamples
-/

/-- A small freshly-initialised manager (two strips of 10 LEDs, serial
attached), as built by `BlinkManager.__init__`. -/
def mgr0 : BlinkManager :=
  { LED_COUNT := 10
    num_strips := 2
    shelf_led_count := 10
    blocks := []
    active_led_pins := fun _ => none
    timeout := 10000
    incorrect_leds := []
    incorrect_led_last_detect_time := fun _ => none
    mode := none
    current_block := none
    controlled_values := fun _ => none
    led_to_shelf := fun _ => none
    has_serial := true
    debounce_time := 100
    last_detection_time := fun _ => none }

/-- A block over pins `[5, 6]` with the cursor at 0 and pin 5 green, as
`add_block` leaves it. -/
def blk56 : Block :=
  { led_sequence := [⟨"1", 5⟩, ⟨"1", 6⟩]
    leds := [5, 6]
    current_index := 0
    green_counts := fun q => if q = 5 then 1 else 0
    last_correct_detection_time := 0
    processed_leds := fun _ => none
    cooldown := 1000
    per_led_cooldown := 500
    ignored_leds := fun _ => false }

/-- `mgr0` while the block `blk56` is active. -/
def mgrB : BlinkManager :=
  { mgr0 with mode := some PMode.block, blocks := [blk56], current_block := some blk56 }

/-- `blk56` with pin 5 processed 200 ms before time 100000 and a stale
entry for pin 9 (10000 ms old, well past the 2000 ms expiry window)
still present in both `processed_leds` and `ignored_leds`. -/
def blkC8 : Block :=
  { blk56 with
      processed_leds := fun q =>
        if q = 5 then some 99800 else if q = 9 then some 90000 else none
      ignored_leds := fun q => q == 9 }

example :
    (blk56.handle_detection 5 100000 mgrB).2.2 =
      [Effect.ledWrite 0 4 (0, 0, 0), Effect.ledWrite 0 5 (0, 255, 0),
       Effect.serialWrite "#6#\n".toList] := by decide

example : (blk56.handle_detection 5 100000 mgrB).1.current_index = 1 := by decide
example : (blk56.handle_detection 7 100000 mgrB).2.2 = [Effect.spawnIncorrectTask 7] := by decide
example : (blk56.handle_detection 7 100000 mgrB).1.current_index = 0 := by decide

example :
    (process_command mgrB "DETECTED:7".toList).1 = "#FALSE:7+#\n".toList := by decide
example :
    (process_command mgrB "DETECTED:5".toList).1 = "#CORRECT:5+#\n".toList := by decide
example :
    (process_command mgrB "DETECTED:x".toList).1 = "#INVALID_DETECTION+#\n".toList := by decide

/-!
## Helper lemmas
-/

/-- A buffer with no `#(.*?)#` match is left as-is by the match loop. -/
theorem find_frames_of_none {buf : List Char} (h : find_frame buf = none) :
    find_frames buf = ([], buf) := by
  unfold find_frames
  cases hl : buf.length with
  | zero => rfl
  | succ n => simp [find_frames_aux, h]

/-- A pure-`'a'` buffer contains no frame. -/
theorem find_frame_replicate_a (n : Nat) : find_frame (List.replicate n 'a') = none := by
  induction n with
  | zero => rfl
  | succ k ih => simpa [List.replicate, find_frame] using ih

/-- `startswith` holds on any extension of the tag. -/
theorem starts_with_chars_append (t s : List Char) : starts_with_chars t (t ++ s) = true := by
  induction t with
  | nil => rfl
  | cons c r ih => simpa [starts_with_chars] using ih

/-!
## C4 — frame extraction round-trip and overflow recovery
-/

/-- C4: feeding `"#DETECTED:7#"` yields exactly the parsed message
`DETECTED:7` with the buffer emptied; feeding `"#DETECTED:7##STOP#"`
yields the two messages in arrival order with all processed bytes
dropped; and any buffer containing no extractable frame whose length
exceeds `BUFFER_MAX_SIZE = 4096` is cleared entirely, yielding no
message. -/
theorem frame_codec_roundtrip :
    process_buffer_frames "#DETECTED:7#".toList = (["DETECTED:7".toList], [])
    ∧ process_buffer_frames "#DETECTED:7##STOP#".toList
        = (["DETECTED:7".toList, "STOP".toList], [])
    ∧ ∀ buf : List Char, find_frame buf = none → BUFFER_MAX_SIZE < buf.length →
        process_buffer_frames buf = ([], []) := by
  refine ⟨by decide, by decide, ?_⟩
  intro buf h hlen
  unfold process_buffer_frames
  rw [find_frames_of_none h]
  have h1 : (([], buf) : List (List Char) × List Char).1.isEmpty = true := rfl
  rw [if_pos h1, if_pos hlen]


/-- Witness for C4 at a concrete overflowing junk buffer. -/
theorem frame_codec_roundtrip_witness :
    process_buffer_frames (List.replicate 4097 'a') = ([], []) :=
  frame_codec_roundtrip.2.2 (List.replicate 4097 'a') (find_frame_replicate_a 4097)
    (by rw [List.length_replicate]; norm_num [BUFFER_MAX_SIZE])

/-!
## C3 — acknowledgement bytes for DETECTED frames
-/

/-- C3 counterexample: the bytes actually written back are produced by
`ACK_FORMAT = '#{}+#\n'`, so for `DETECTED:5` against an active block
containing pin 5 they are `#CORRECT:5+#\n` — not `#CORRECT:5#` as the
claim states (and similarly `#FALSE:7+#\n`, `#INVALID_DETECTION+#\n`). -/
theorem detected_ack_counterexample :
    (process_command mgrB "DETECTED:5".toList).1 = "#CORRECT:5+#\n".toList
    ∧ (process_command mgrB "DETECTED:7".toList).1 = "#FALSE:7+#\n".toList
    ∧ (process_command mgrB "DETECTED:x".toList).1 = "#INVALID_DETECTION+#\n".toList
    ∧ "#CORRECT:5+#\n".toList ≠ "#CORRECT:5#".toList := by
  refine ⟨by decide, by decide, by decide, by decide⟩

/-- C3 (amended): for every inbound frame whose payload strips to
`DETECTED:<rest>`, when `<rest>` parses as an integer `n` the reply is
exactly `ack_format` of `CORRECT:<n>` when `n` is in the active block's
pin set and of `FALSE:<n>` otherwise — that is, `#CORRECT:<n>+#␊` /
`#FALSE:<n>+#␊`; when `<rest>` does not parse as an integer the reply
is exactly `#INVALID_DETECTION+#␊`. -/
theorem detected_ack_format (m : BlinkManager) (raw rest : List Char)
    (h : py_strip raw = detected_tag ++ rest) :
    (∀ n : Int, py_int rest = some n →
      (process_command m raw).1 =
        ack_format ((if n ∈ active_block_leds m then "CORRECT:".toList
                     else "FALSE:".toList) ++ int_chars n))
    ∧ (py_int rest = none →
        (process_command m raw).1 = ack_format "INVALID_DETECTION".toList) := by
  have hsw : starts_with_chars detected_tag (py_strip raw) = true := by
    rw [h]; exact starts_with_chars_append detected_tag rest
  have hdrop : (py_strip raw).drop detected_tag.length = rest := by
    rw [h]; exact List.drop_left detected_tag rest
  constructor
  · intro n hn
    simp only [process_command, hsw, hdrop, hn, if_true]
    by_cases hm : n ∈ active_block_leds m <;> simp [hm]
  · intro hn
    simp only [process_command, hsw, hdrop, hn, if_true]

/-- Witness for C3 applied at `DETECTED:7` against `mgrB`. -/
theorem detected_ack_format_witness :
    (process_command mgrB "DETECTED:7".toList).1 =
      ack_format ((if (7 : Int) ∈ active_block_leds mgrB then "CORRECT:".toList
                   else "FALSE:".toList) ++ int_chars 7) :=
  (detected_ack_format mgrB "DETECTED:7".toList "7".toList (by decide)).1 7 (by decide)

/-!
## C1 — add_block while a Block is active
-/

/-- C1 counterexample: with the block `blk56` active, `add_block`
returns normally with the engine state unchanged — it does not fail
with `ConflictError` (or any error), contradicting the claim that the
call fails. -/
theorem add_block_conflict_counterexample :
    mgrB.add_block [⟨"1", 3⟩] (fun _ => none) = Except.ok (mgrB, [])
    ∧ ∀ e : EngineError, mgrB.add_block [⟨"1", 3⟩] (fun _ => none) ≠ Except.error e := by
  have h1 : mgrB.add_block [⟨"1", 3⟩] (fun _ => none) = Except.ok (mgrB, []) := rfl
  exact ⟨h1, fun e he => Except.noConfusion (h1 ▸ he)⟩

/-- C1 (amended): a `add_block` call made while a Block is active never
raises `ConflictError`.  The `blink_managermentes` variant refuses the
request silently: it returns normally with the engine state (mode,
current Block, controlled values, LED-to-shelf map — the whole manager)
unchanged and no effect performed.  The `blink_manager` variant has no
conflict check at all: it installs the new Block as current (keeping
the old one in `blocks`). -/
theorem add_block_while_active (m : BlinkManager) (seq : List LedInfo)
    (cv : String → Option Int) (h : m.mode = some PMode.block) :
    m.add_block seq cv = Except.ok (m, [])
    ∧ ∃ mz effs bz, m.add_block_v1 seq cv = Except.ok (mz, effs)
        ∧ mz.mode = some PMode.block ∧ mz.current_block = some bz
        ∧ mz.blocks = m.blocks ++ [bz] := by
  constructor
  · unfold BlinkManager.add_block
    rw [if_pos h]
  · exact ⟨_, _, _, rfl, rfl, rfl, rfl⟩

/-- Witness for C1 at the concrete active-block state `mgrB`. -/
theorem add_block_while_active_witness :
    mgrB.add_block [⟨"1", 3⟩] (fun _ => none) = Except.ok (mgrB, []) :=
  (add_block_while_active mgrB [⟨"1", 3⟩] (fun _ => none) rfl).1

/-!
## C2 — cursor invariants of the Block state machine
-/

/-- The "already processed" guard at the top of `handle_detection`:
the Block accepts no further detections iff the cursor has reached the
end of `leds` (given the cursor bound, iff `current_index = len`). -/
def Block.is_complete (b : Block) : Bool := b.leds.length ≤ b.current_index

/-- `handle_detection` never changes the pin sequence. -/
theorem handle_detection_leds (b : Block) (p : Int) (t : Int) (m : BlinkManager) :
    (b.handle_detection p t m).1.leds = b.leds := by
  unfold Block.handle_detection
  split_ifs <;> rfl

/-- The cursor either stays or advances by exactly one, and it advances
only when the detected pin is `leds[current_index]` with the cursor in
range. -/
theorem handle_detection_index (b : Block) (p : Int) (t : Int) (m : BlinkManager) :
    (b.handle_detection p t m).1.current_index = b.current_index
    ∨ ((b.handle_detection p t m).1.current_index = b.current_index + 1
        ∧ b.current_index < b.leds.length ∧ b.leds.getD b.current_index 0 = p) := by
  unfold Block.handle_detection
  split_ifs with h1 h2 h3 h4 h5 h6 <;>
    first
      | exact Or.inl rfl
      | exact Or.inr ⟨rfl, lt_of_not_le h1, h3.symm⟩

/-- The cursor bound `current_index ≤ len(leds)` is preserved. -/
theorem handle_detection_index_le (b : Block) (p : Int) (t : Int) (m : BlinkManager)
    (hb : b.current_index ≤ b.leds.length) :
    (b.handle_detection p t m).1.current_index ≤ b.leds.length := by
  rcases handle_detection_index b p t m with h | ⟨h, hlt, _⟩
  · omega
  · omega

/-- Monotonicity and the bound along any sequence of detections. -/
theorem run_detections_index (b : Block) (m : BlinkManager) (evs : List (Int × Int)) :
    b.current_index ≤ (run_detections b m evs).1.current_index
    ∧ (run_detections b m evs).1.leds = b.leds
    ∧ (b.current_index ≤ b.leds.length →
        (run_detections b m evs).1.current_index ≤ b.leds.length) := by
  induction evs generalizing b m with
  | nil => exact ⟨le_refl _, rfl, fun h => h⟩
  | cons ev evs ih =>
      obtain ⟨t, p⟩ := ev
      have hstep := handle_detection_index b p t m
      have hleds := handle_detection_leds b p t m
      have hrest := ih (b.handle_detection p t m).1 (b.handle_detection p t m).2.1
      refine ⟨?_, ?_, ?_⟩
      · have : b.current_index ≤ (b.handle_detection p t m).1.current_index := by
          rcases hstep with h | ⟨h, _, _⟩ <;> omega
        exact le_trans this hrest.1
      · rw [show run_detections b m ((t, p) :: evs)
              = run_detections (b.handle_detection p t m).1 (b.handle_detection p t m).2.1 evs
            from rfl, hrest.2.1, hleds]
      · intro hb
        have h1 := handle_detection_index_le b p t m hb
        have h2 := hrest.2.2
        rw [hleds] at h2
        exact h2 h1

/-- The v1 step: same cursor facts for `blink_manager.Block`. -/
theorem handle_detection_v1_index (b : Block) (p : Int) (m : BlinkManager) :
    (b.handle_detection_v1 p m).1.leds = b.leds
    ∧ ((b.handle_detection_v1 p m).1.current_index = b.current_index
        ∨ ((b.handle_detection_v1 p m).1.current_index = b.current_index + 1
            ∧ b.current_index < b.leds.length ∧ b.leds.getD b.current_index 0 = p)) := by
  unfold Block.handle_detection_v1
  split_ifs with h1 h2 h3 <;>
    first
      | exact ⟨rfl, Or.inl rfl⟩
      | exact ⟨rfl, Or.inr ⟨rfl, lt_of_not_le h1, h2.symm⟩⟩

/-- C2: in both implementations the cursor is monotonically
non-decreasing, stays within `0 ≤ current_index ≤ len(leds)`, and is
incremented — by exactly one — only by a call whose detected pin equals
`leds[current_index]`; the Block refuses further processing
(`is_complete`) exactly when `current_index = len(leds)`.  (The lower
bound `0 ≤ current_index` is inherent: the cursor is a `Nat`.) -/
theorem block_cursor_invariants :
    (∀ (b : Block) (p : Int) (t : Int) (m : BlinkManager),
      (b.handle_detection p t m).1.leds = b.leds
      ∧ b.current_index ≤ (b.handle_detection p t m).1.current_index
      ∧ ((b.handle_detection p t m).1.current_index ≠ b.current_index →
          (b.handle_detection p t m).1.current_index = b.current_index + 1
          ∧ b.current_index < b.leds.length ∧ b.leds.getD b.current_index 0 = p)
      ∧ (b.current_index ≤ b.leds.length →
          (b.handle_detection p t m).1.current_index ≤ b.leds.length))
    ∧ (∀ (b : Block) (m : BlinkManager) (evs : List (Int × Int)),
        b.current_index ≤ (run_detections b m evs).1.current_index
        ∧ (b.current_index ≤ b.leds.length →
            (run_detections b m evs).1.current_index ≤ b.leds.length))
    ∧ (∀ b : Block, b.current_index ≤ b.leds.length →
        (b.is_complete = true ↔ b.current_index = b.leds.length))
    ∧ (∀ (b : Block) (p : Int) (m : BlinkManager),
        (b.handle_detection_v1 p m).1.leds = b.leds
        ∧ ((b.handle_detection_v1 p m).1.current_index = b.current_index
            ∨ ((b.handle_detection_v1 p m).1.current_index = b.current_index + 1
                ∧ b.current_index < b.leds.length
                ∧ b.leds.getD b.current_index 0 = p))) := by
  refine ⟨fun b p t m => ⟨handle_detection_leds b p t m, ?_, ?_, handle_detection_index_le b p t m⟩,
          fun b m evs => ⟨(run_detections_index b m evs).1, (run_detections_index b m evs).2.2⟩,
          fun b hb => ?_, handle_detection_v1_index⟩
  · rcases handle_detection_index b p t m with h | ⟨h, _, _⟩ <;> omega
  · intro hne
    rcases handle_detection_index b p t m with h | h
    · exact absurd h hne
    · exact h
  · unfold Block.is_complete
    constructor
    · intro h
      have := of_decide_eq_true h
      omega
    · intro h
      exact decide_eq_true_eq.mpr (by omega)

/-- Witness for C2 on the concrete block `blk56` driven through its
whole sequence (correct detections of 5 then 6, spaced beyond the
cooldowns). -/
theorem block_cursor_invariants_witness :
    blk56.current_index ≤ blk56.leds.length
    ∧ (run_detections blk56 mgrB [(100000, 5), (101200, 6)]).1.current_index
        ≤ blk56.leds.length :=
  ⟨by decide, (block_cursor_invariants.2.1 blk56 mgrB [(100000, 5), (101200, 6)]).2 (by decide)⟩

/-!
## C8 — when the processed-LEDs sweep actually runs
-/

/-- After a sweep, no `processed_leds` entry is more than 2000 ms old. -/
theorem sweep_no_stale (b : Block) (t : Int) (led : Int) (t' : Int)
    (h : (b.sweep_processed t).processed_leds led = some t') : t - t' ≤ 2000 := by
  unfold Block.sweep_processed at h
  dsimp only at h
  cases hu : b.processed_leds led with
  | none => rw [hu] at h; simp at h
  | some u =>
      rw [hu] at h
      by_cases hlt : 2000 < t - u
      · simp [hlt] at h
      · simp [hlt] at h
        omega

/-- The already-complete guard returns with no state change. -/
theorem handle_detection_done (b : Block) (p : Int) (t : Int) (m : BlinkManager)
    (h : b.leds.length ≤ b.current_index) :
    b.handle_detection p t m = (b, m, []) := by
  unfold Block.handle_detection
  rw [if_pos h]

/-- The per-LED cooldown discard returns with no state change (and in
particular no sweep). -/
theorem handle_detection_per_led_discard (b : Block) (p : Int) (t : Int) (m : BlinkManager)
    (h1 : ¬ b.leds.length ≤ b.current_index)
    (h2 : t - (b.processed_leds p).getD 0 < b.per_led_cooldown) :
    b.handle_detection p t m = (b, m, []) := by
  unfold Block.handle_detection
  rw [if_neg h1, if_pos h2]

/-- The block-cooldown discard returns with no state change. -/
theorem handle_detection_block_cooldown_discard (b : Block) (p : Int) (t : Int)
    (m : BlinkManager)
    (h1 : ¬ b.leds.length ≤ b.current_index)
    (h2 : ¬ (t - (b.processed_leds p).getD 0 < b.per_led_cooldown))
    (h3 : p = b.leds.getD b.current_index 0)
    (h4 : t - b.last_correct_detection_time < b.cooldown) :
    b.handle_detection p t m = (b, m, []) := by
  unfold Block.handle_detection
  rw [if_neg h1, if_neg h2, if_pos h3, if_pos h4]

/-- The ignored-neighbor discard returns with no state change. -/
theorem handle_detection_ignored_discard (b : Block) (p : Int) (t : Int) (m : BlinkManager)
    (h1 : ¬ b.leds.length ≤ b.current_index)
    (h2 : ¬ (t - (b.processed_leds p).getD 0 < b.per_led_cooldown))
    (h3 : p ≠ b.leds.getD b.current_index 0)
    (h4 : b.ignored_leds p = true) :
    b.handle_detection p t m = (b, m, []) := by
  unfold Block.handle_detection
  rw [if_neg h1, if_neg h2, if_neg h3, if_pos h4]

/-- On the correct-advance path the resulting block is a sweep of the
updated block. -/
theorem handle_detection_adv_shape (b : Block) (p : Int) (t : Int) (m : BlinkManager)
    (h1 : ¬ b.leds.length ≤ b.current_index)
    (h2 : ¬ (t - (b.processed_leds p).getD 0 < b.per_led_cooldown))
    (h3 : p = b.leds.getD b.current_index 0)
    (h4 : ¬ (t - b.last_correct_detection_time < b.cooldown)) :
    ∃ bz : Block, (b.handle_detection p t m).1 = bz.sweep_processed t := by
  unfold Block.handle_detection
  rw [if_neg h1, if_neg h2, if_pos h3, if_neg h4]
  by_cases h5 : b.current_index + 1 < b.leds.length
  · rw [if_pos h5]
    exact ⟨_, rfl⟩
  · rw [if_neg h5]
    exact ⟨_, rfl⟩

/-- On the incorrect-dispatch path the resulting block is a sweep of
the input block. -/
theorem handle_detection_incorrect_shape (b : Block) (p : Int) (t : Int) (m : BlinkManager)
    (h1 : ¬ b.leds.length ≤ b.current_index)
    (h2 : ¬ (t - (b.processed_leds p).getD 0 < b.per_led_cooldown))
    (h3 : p ≠ b.leds.getD b.current_index 0)
    (h4 : b.ignored_leds p = false) :
    b.handle_detection p t m = (b.sweep_processed t, m, [Effect.spawnIncorrectTask p]) := by
  unfold Block.handle_detection
  rw [if_neg h1, if_neg h2, if_neg h3, if_neg (by simp [h4])]

/-- The sweep drops a stale entry together with the pin's
`ignored_leds` membership. -/
theorem sweep_drops_stale (b : Block) (t led u : Int)
    (hu : b.processed_leds led = some u) (hst : 2000 < t - u) :
    (b.sweep_processed t).processed_leds led = none
    ∧ (b.sweep_processed t).ignored_leds led = false := by
  unfold Block.sweep_processed
  dsimp only
  rw [hu]
  exact ⟨by simp [hst], by simp [hst]⟩

/-- On the correct-advance path, any pin with a stale `processed_leds`
stamp — other than the detected pin and its two neighbors, which the
branch re-stamps at `now` before the sweep — is dropped by the sweep
from both `processed_leds` and `ignored_leds`. -/
theorem handle_detection_adv_sweeps (b : Block) (p : Int) (t : Int) (m : BlinkManager)
    (h1 : ¬ b.leds.length ≤ b.current_index)
    (h2 : ¬ (t - (b.processed_leds p).getD 0 < b.per_led_cooldown))
    (h3 : p = b.leds.getD b.current_index 0)
    (h4 : ¬ (t - b.last_correct_detection_time < b.cooldown))
    (led u : Int) (hu : b.processed_leds led = some u) (hst : 2000 < t - u)
    (hne1 : led ≠ p - 1) (hne2 : led ≠ p + 1) (hnep : led ≠ p) :
    (b.handle_detection p t m).1.processed_leds led = none
    ∧ (b.handle_detection p t m).1.ignored_leds led = false := by
  unfold Block.handle_detection
  rw [if_neg h1, if_neg h2, if_pos h3, if_neg h4]
  by_cases h5 : b.current_index + 1 < b.leds.length
  · rw [if_pos h5]
    unfold Block.sweep_processed
    dsimp only
    simp [updOpt, addPin, hne1, hne2, hnep, hu, hst]
  · rw [if_neg h5]
    unfold Block.sweep_processed
    dsimp only
    simp [updOpt, addPin, hne1, hne2, hnep, hu, hst]

/-- C8 counterexample: a per-LED-cooldown discard performs no sweep.
In `blkC8`, pin 9 carries a `processed_leds` stamp 10000 ms old (far
beyond the ≈2 s expiry window) and an `ignored_leds` membership; the
call `handle_detection 5` at time 100000 is discarded by the per-LED
cooldown (5 was processed 200 ms ago) and — contradicting the claim —
leaves the stale entry and the ignored membership in place. -/
theorem sweep_branches_counterexample :
    ((blkC8.handle_detection 5 100000 mgrB).1.processed_leds 9 = some 90000
      ∧ (blkC8.handle_detection 5 100000 mgrB).1.ignored_leds 9 = true)
    ∧ 2000 < (100000 : Int) - 90000
    ∧ (100000 : Int) - (blkC8.processed_leds 5).getD 0 < blkC8.per_led_cooldown := by
  exact ⟨⟨by decide, by decide⟩, by decide, by decide⟩

/-- C8 (amended): the `processed_leds` sweep does not run on every
call: the four early-return branches (already-complete guard, per-LED
cooldown discard, block-cooldown discard, ignored-neighbor discard)
return with the block — including its `processed_leds` map and
`ignored_leds` set — completely unchanged; only the two branches that
fall through to the end of the method body (correct advance and
incorrect dispatch) sweep, after which no `processed_leds` entry older
than the 2000 ms expiry window remains, and every pin whose stale
entry the sweep removed also loses its `ignored_leds` membership (on
the correct-advance branch the detected pin and its two neighbors are
re-stamped at `now` before the sweep and so are never stale). -/
theorem processed_sweep_branches :
    (∀ (b : Block) (p : Int) (t : Int) (m : BlinkManager),
      b.leds.length ≤ b.current_index → b.handle_detection p t m = (b, m, []))
    ∧ (∀ (b : Block) (p : Int) (t : Int) (m : BlinkManager),
        ¬ b.leds.length ≤ b.current_index →
        t - (b.processed_leds p).getD 0 < b.per_led_cooldown →
        b.handle_detection p t m = (b, m, []))
    ∧ (∀ (b : Block) (p : Int) (t : Int) (m : BlinkManager),
        ¬ b.leds.length ≤ b.current_index →
        ¬ (t - (b.processed_leds p).getD 0 < b.per_led_cooldown) →
        p = b.leds.getD b.current_index 0 →
        t - b.last_correct_detection_time < b.cooldown →
        b.handle_detection p t m = (b, m, []))
    ∧ (∀ (b : Block) (p : Int) (t : Int) (m : BlinkManager),
        ¬ b.leds.length ≤ b.current_index →
        ¬ (t - (b.processed_leds p).getD 0 < b.per_led_cooldown) →
        p ≠ b.leds.getD b.current_index 0 →
        b.ignored_leds p = true →
        b.handle_detection p t m = (b, m, []))
    ∧ (∀ (b : Block) (p : Int) (t : Int) (m : BlinkManager) (led : Int) (u : Int),
        ¬ b.leds.length ≤ b.current_index →
        ¬ (t - (b.processed_leds p).getD 0 < b.per_led_cooldown) →
        p = b.leds.getD b.current_index 0 →
        ¬ (t - b.last_correct_detection_time < b.cooldown) →
        (b.handle_detection p t m).1.processed_leds led = some u → t - u ≤ 2000)
    ∧ (∀ (b : Block) (p : Int) (t : Int) (m : BlinkManager) (led : Int) (u : Int),
        ¬ b.leds.length ≤ b.current_index →
        ¬ (t - (b.processed_leds p).getD 0 < b.per_led_cooldown) →
        p ≠ b.leds.getD b.current_index 0 →
        b.ignored_leds p = false →
        (b.handle_detection p t m).1.processed_leds led = some u → t - u ≤ 2000)
    ∧ (∀ (b : Block) (p : Int) (t : Int) (m : BlinkManager) (led : Int) (u : Int),
        ¬ b.leds.length ≤ b.current_index →
        ¬ (t - (b.processed_leds p).getD 0 < b.per_led_cooldown) →
        p = b.leds.getD b.current_index 0 →
        ¬ (t - b.last_correct_detection_time < b.cooldown) →
        b.processed_leds led = some u → 2000 < t - u →
        led ≠ p - 1 → led ≠ p + 1 → led ≠ p →
        (b.handle_detection p t m).1.processed_leds led = none
        ∧ (b.handle_detection p t m).1.ignored_leds led = false)
    ∧ (∀ (b : Block) (p : Int) (t : Int) (m : BlinkManager) (led : Int) (u : Int),
        ¬ b.leds.length ≤ b.current_index →
        ¬ (t - (b.processed_leds p).getD 0 < b.per_led_cooldown) →
        p ≠ b.leds.getD b.current_index 0 →
        b.ignored_leds p = false →
        b.processed_leds led = some u → 2000 < t - u →
        (b.handle_detection p t m).1.processed_leds led = none
        ∧ (b.handle_detection p t m).1.ignored_leds led = false) := by
  refine ⟨handle_detection_done,
          fun b p t m h1 h2 => handle_detection_per_led_discard b p t m h1 h2,
          fun b p t m h1 h2 h3 h4 => handle_detection_block_cooldown_discard b p t m h1 h2 h3 h4,
          fun b p t m h1 h2 h3 h4 => handle_detection_ignored_discard b p t m h1 h2 h3 h4,
          ?_, ?_, ?_, ?_⟩
  · intro b p t m led u h1 h2 h3 h4 hmem
    obtain ⟨bz, hbz⟩ := handle_detection_adv_shape b p t m h1 h2 h3 h4
    rw [hbz] at hmem
    exact sweep_no_stale bz t led u hmem
  · intro b p t m led u h1 h2 h3 h4 hmem
    rw [handle_detection_incorrect_shape b p t m h1 h2 h3 h4] at hmem
    exact sweep_no_stale b t led u hmem
  · intro b p t m led u h1 h2 h3 h4 hu hst hne1 hne2 hnep
    exact handle_detection_adv_sweeps b p t m h1 h2 h3 h4 led u hu hst hne1 hne2 hnep
  · intro b p t m led u h1 h2 h3 h4 hu hst
    rw [handle_detection_incorrect_shape b p t m h1 h2 h3 h4]
    exact sweep_drops_stale b t led u hu hst

/-- Witness for C8's amended statement: the per-LED-cooldown discard
leaves `blkC8` unchanged. -/
theorem processed_sweep_branches_witness :
    blkC8.handle_detection 5 100000 mgrB = (blkC8, mgrB, []) :=
  processed_sweep_branches.2.1 blkC8 5 100000 mgrB (by decide) (by decide)

/-!
## C5 — per-LED cooldown
-/

/-- A correct advance stamps `processed_leds[p] = now` (the stamp
survives the sweep, being 0 ms old) and leaves `per_led_cooldown`
unchanged. -/
theorem handle_detection_adv_processed (b : Block) (p : Int) (t : Int) (m : BlinkManager)
    (h1 : ¬ b.leds.length ≤ b.current_index)
    (h2 : ¬ (t - (b.processed_leds p).getD 0 < b.per_led_cooldown))
    (h3 : p = b.leds.getD b.current_index 0)
    (h4 : ¬ (t - b.last_correct_detection_time < b.cooldown)) :
    (b.handle_detection p t m).1.processed_leds p = some t
    ∧ (b.handle_detection p t m).1.per_led_cooldown = b.per_led_cooldown := by
  have hne1 : p ≠ p + 1 := by omega
  have hne2 : p ≠ p - 1 := by omega
  unfold Block.handle_detection
  rw [if_neg h1, if_neg h2, if_pos h3, if_neg h4]
  by_cases h5 : b.current_index + 1 < b.leds.length
  · rw [if_pos h5]
    refine ⟨?_, rfl⟩
    unfold Block.sweep_processed
    dsimp only
    simp [updOpt, hne1, hne2]
  · rw [if_neg h5]
    refine ⟨?_, rfl⟩
    unfold Block.sweep_processed
    dsimp only
    simp [updOpt, hne1, hne2]

/-- C5 counterexample: incorrect detections never stamp
`processed_leds`, so the per-LED cooldown does not throttle them — two
detections of the out-of-block pin 7, 200 ms < `per_led_cooldown` =
500 ms apart, each produce a state transition (an incorrect-detection
dispatch), not at most one as the claim states. -/
theorem per_led_cooldown_counterexample :
    (blk56.handle_detection 7 100000 mgrB).2.2 = [Effect.spawnIncorrectTask 7]
    ∧ ((blk56.handle_detection 7 100000 mgrB).1.handle_detection 7 100200
          (blk56.handle_detection 7 100000 mgrB).2.1).2.2 = [Effect.spawnIncorrectTask 7]
    ∧ (100200 : Int) - 100000 < blk56.per_led_cooldown := by
  exact ⟨by decide, by decide, by decide⟩

/-- C5 (amended): the per-LED cooldown throttles re-detections of a pin
whose `processed_leds` stamp is fresh; such a stamp is written by a
correct advance.  If `handle_detection p` performs a correct advance at
time `t1`, then a second `handle_detection p` within `per_led_cooldown`
of `t1` is a complete no-op: it returns the block, the manager and an
empty effect list unchanged — no index advance, no green-count change,
no ignored/processed update, no supervisor dispatch.  (Two detections
of a pin that was not correctly advanced — e.g. two incorrect
detections — are each processed, see the counterexample.) -/
theorem per_led_cooldown_after_advance (b : Block) (p : Int) (t1 t2 : Int) (m : BlinkManager)
    (h1 : ¬ b.leds.length ≤ b.current_index)
    (h2 : ¬ (t1 - (b.processed_leds p).getD 0 < b.per_led_cooldown))
    (h3 : p = b.leds.getD b.current_index 0)
    (h4 : ¬ (t1 - b.last_correct_detection_time < b.cooldown))
    (h5 : t2 - t1 < b.per_led_cooldown) :
    (b.handle_detection p t1 m).1.handle_detection p t2 (b.handle_detection p t1 m).2.1
      = ((b.handle_detection p t1 m).1, (b.handle_detection p t1 m).2.1, []) := by
  by_cases hdone :
      (b.handle_detection p t1 m).1.leds.length ≤ (b.handle_detection p t1 m).1.current_index
  · exact handle_detection_done _ p t2 _ hdone
  · have hadv := handle_detection_adv_processed b p t1 m h1 h2 h3 h4
    apply handle_detection_per_led_discard _ p t2 _ hdone
    rw [hadv.1, hadv.2]
    simpa using h5

/-- Witness for C5: block `blk56` advances on pin 5 at time 100000; a
re-detection of 5 at 100300 (300 ms later) changes nothing. -/
theorem per_led_cooldown_after_advance_witness :
    (blk56.handle_detection 5 100000 mgrB).1.handle_detection 5 100300
        (blk56.handle_detection 5 100000 mgrB).2.1
      = ((blk56.handle_detection 5 100000 mgrB).1,
         (blk56.handle_detection 5 100000 mgrB).2.1, []) :=
  per_led_cooldown_after_advance blk56 5 100000 100300 mgrB
    (by decide) (by decide) (by decide) (by decide) (by decide)

/-!
## C6 — guards of handle_incorrect_detection
-/

/-- C6 counterexample: the `blink_manager` (v1) variant of
`handle_incorrect_detection` has no race-guard.  Called on pin 5 —
which is the currently-expected pin of `mgrB`'s active block — it
nevertheless records the last-detection timestamp, creates a registry
entry, and spawns a supervisor task. -/
theorem incorrect_detection_guard_counterexample :
    mgrB.current_block = some blk56
    ∧ blk56.leds.getD blk56.current_index 0 = 5
    ∧ (mgrB.handle_incorrect_detection_v1 5 100000).2 = [Effect.spawnIncorrectTask 5]
    ∧ (mgrB.handle_incorrect_detection_v1 5 100000).1.incorrect_leds = [5]
    ∧ (mgrB.handle_incorrect_detection_v1 5 100000).1.incorrect_led_last_detect_time 5
        = some 100000 := by
  exact ⟨rfl, by decide, by decide, by decide, by decide⟩

/-- C6 (amended): in the `blink_managermentes` variant the call is a
no-op — no supervisor spawned, no registry entry, no timestamp — when
the pin is in the active Block's ignored set within its 2000 ms
suppression window, or when the pin equals the currently-expected pin.
The `blink_manager` variant has no such guard: it always records the
timestamp, and spawns a supervisor whenever none is registered, even
for the expected pin. -/
theorem incorrect_detection_guards :
    (∀ (m : BlinkManager) (b : Block) (p : Int) (t : Int),
      m.current_block = some b →
      ((b.ignored_leds p = true ∧ t - (b.processed_leds p).getD 0 < 2000)
        ∨ b.leds.getD b.current_index 0 = p) →
      m.handle_incorrect_detection p t = (m, []))
    ∧ (∀ (m : BlinkManager) (p : Int) (t : Int),
        (m.handle_incorrect_detection_v1 p t).1.incorrect_led_last_detect_time p = some t
        ∧ (p ∉ m.incorrect_leds →
            (m.handle_incorrect_detection_v1 p t).2 = [Effect.spawnIncorrectTask p])) := by
  constructor
  · intro m b p t hcb h
    unfold BlinkManager.handle_incorrect_detection
    rw [hcb]
    dsimp only
    by_cases hig : (b.ignored_leds p && decide (t - (b.processed_leds p).getD 0 < 2000)) = true
    · rw [if_pos hig]
    · rw [if_neg hig]
      rcases h with ⟨hi1, hi2⟩ | hexp
      · exact absurd (by simp [hi1, hi2]) hig
      · rw [if_pos (by rw [Option.map_some', hexp])]
  · intro m p t
    constructor
    · unfold BlinkManager.handle_incorrect_detection_v1
      dsimp only
      by_cases hmem : p ∈ m.incorrect_leds
      · rw [if_pos hmem]
        simp [updOpt]
      · rw [if_neg hmem]
        simp [updOpt]
    · intro hmem
      unfold BlinkManager.handle_incorrect_detection_v1
      dsimp only
      rw [if_neg hmem]

/-- Witness for C6: for `mgrB` (expected pin 5 of `blk56`) the mentes
variant is a no-op. -/
theorem incorrect_detection_guards_witness :
    mgrB.handle_incorrect_detection 5 100000 = (mgrB, []) :=
  incorrect_detection_guards.1 mgrB blk56 5 100000 rfl (Or.inr (by decide))

/-!
## C7 — what turn_off_all_leds resets
-/

/-- `mgrB` with an outstanding incorrect-detection supervisor for pin 9
and a debounce stamp for pin 7. -/
def mgrD : BlinkManager :=
  { mgrB with
      incorrect_leds := [9]
      incorrect_led_last_detect_time := fun q => if q = 9 then some 99000 else none
      last_detection_time := fun q => if q = 7 then some 100000 else none }

/-- C7 counterexample: `turn_off_all_leds` does not clear the global
debounce map `last_detection_time` — the stamp for pin 7 survives the
full reset, contradicting the claim that the map is empty afterwards. -/
theorem turn_off_all_counterexample :
    (mgrD.turn_off_all_leds).1.last_detection_time 7 = some 100000 := by
  decide

/-- C7 (amended): after `turn_off_all_leds` the mode is cleared, the
current Block and block list are empty, the single-mode active-pin map
is empty, the controlled-value map is empty, and every
incorrect-detection supervisor entry has been cancelled and removed;
the global debounce map `last_detection_time`, however, is left
untouched (it is never cleared). -/
theorem turn_off_all_resets (m : BlinkManager) :
    (∀ p, (m.turn_off_all_leds).1.active_led_pins p = none)
    ∧ (m.turn_off_all_leds).1.blocks = []
    ∧ (m.turn_off_all_leds).1.mode = none
    ∧ (m.turn_off_all_leds).1.current_block = none
    ∧ (∀ s, (m.turn_off_all_leds).1.controlled_values s = none)
    ∧ (m.turn_off_all_leds).1.incorrect_leds = []
    ∧ (∀ p, (m.turn_off_all_leds).1.incorrect_led_last_detect_time p = none)
    ∧ (∀ p, p ∈ m.incorrect_leds → Effect.cancelTask p ∈ (m.turn_off_all_leds).2)
    ∧ (m.turn_off_all_leds).1.last_detection_time = m.last_detection_time := by
  refine ⟨fun p => rfl, rfl, rfl, rfl, fun s => rfl, rfl, fun p => rfl, ?_, rfl⟩
  intro p hp
  unfold BlinkManager.turn_off_all_leds
  dsimp only
  exact List.mem_append_right _ (List.mem_map_of_mem _ hp)

/-- Witness for C7: the supervisor for pin 9 registered in `mgrD` is
cancelled by the reset. -/
theorem turn_off_all_resets_witness :
    Effect.cancelTask 9 ∈ (mgrD.turn_off_all_leds).2 :=
  (turn_off_all_resets mgrD).2.2.2.2.2.2.2.1 9 (by decide)

/-!
## C9 — totality of set_led_color
-/

/-- C9: `set_led_color` is total at the public interface.  Every call
returns normally (`Except.ok` — no exception escapes): a pin that does
not parse as an integer, or parses to a value below 1 or above
`LED_COUNT * len(stripall)`, yields an empty effect list (no strip
write is performed); and when the hardware write itself throws, the
exception is caught and the call still returns `Except.ok`. -/
theorem set_led_color_total :
    (∀ (m : BlinkManager) (v : PyVal) (c : Color) (hw : Bool),
      ∃ effs, m.set_led_color v c hw = Except.ok effs)
    ∧ (∀ (m : BlinkManager) (s : List Char) (c : Color) (hw : Bool),
        py_int s = none → m.set_led_color (PyVal.str s) c hw = Except.ok [])
    ∧ (∀ (m : BlinkManager) (v : PyVal) (n : Int) (c : Color) (hw : Bool),
        py_int_of v = Except.ok n →
        (n < 1 ∨ m.LED_COUNT * (m.num_strips : Int) < n) →
        m.set_led_color v c hw = Except.ok [])
    ∧ (∀ (m : BlinkManager) (n : Int) (c : Color),
        m.set_led_color (PyVal.int n) c true = Except.ok []) := by
  refine ⟨?_, ?_, ?_, ?_⟩
  · intro m v c hw
    unfold BlinkManager.set_led_color
    cases hv : py_int_of v with
    | error e => exact ⟨[], rfl⟩
    | ok n =>
        dsimp only
        by_cases hr : n < 1 ∨ m.LED_COUNT * (m.num_strips : Int) < n
        · rw [if_pos hr]; exact ⟨[], rfl⟩
        · rw [if_neg hr]
          unfold strip_write
          cases hw
          · exact ⟨_, rfl⟩
          · exact ⟨[], rfl⟩
  · intro m s c hw hs
    unfold BlinkManager.set_led_color
    have hstr : py_int_of (PyVal.str s) = Except.error PyExn.valueError := by
      unfold py_int_of
      dsimp only
      rw [hs]
    rw [hstr]
  · intro m v n c hw hv hr
    unfold BlinkManager.set_led_color
    rw [hv]
    dsimp only
    rw [if_pos hr]
  · intro m n c
    unfold BlinkManager.set_led_color py_int_of
    dsimp only
    by_cases hr : n < 1 ∨ m.LED_COUNT * (m.num_strips : Int) < n
    · rw [if_pos hr]
    · rw [if_neg hr]
      rfl

/-- Witness for C9: a non-numeric pin, an out-of-range pin, and a
throwing hardware write, all against `mgr0`. -/
theorem set_led_color_total_witness :
    mgr0.set_led_color (PyVal.str "abc".toList) (0, 255, 0) false = Except.ok []
    ∧ mgr0.set_led_color (PyVal.int 99) (0, 255, 0) false = Except.ok []
    ∧ mgr0.set_led_color (PyVal.int 5) (0, 255, 0) true = Except.ok [] :=
  ⟨set_led_color_total.2.1 mgr0 "abc".toList (0, 255, 0) false (by decide),
   set_led_color_total.2.2.1 mgr0 (PyVal.int 99) 99 (0, 255, 0) false rfl (by decide),
   set_led_color_total.2.2.2 mgr0 5 (0, 255, 0)⟩

/-!
## C10 — green counts never go negative
-/

/-- The initialisation loop preserves non-negativity of the green
counts (the only update is a guarded increment). -/
theorem init_loop_counts_nonneg (m : BlinkManager) (seq : List LedInfo) :
    ∀ (idx : Nat) (b : Block), (∀ r, 0 ≤ b.green_counts r) →
      ∀ q, 0 ≤ (Block.init_loop m idx seq b).1.green_counts q := by
  induction seq with
  | nil => intro idx b h q; exact h q
  | cons info rest ih =>
      intro idx b h q
      unfold Block.init_loop
      dsimp only
      refine ih (idx + 1) _ ?_ q
      intro r
      split
      · dsimp only
        simp only [updInt]
        split
        · have := h (info.led_id + m.get_controlled_value info.shelf_id)
          omega
        · exact h r
      · exact h r

/-- `handle_detection` (mentes) preserves non-negativity: the decrement
is guarded by `green_counts[detected] > 0`. -/
theorem handle_detection_counts_nonneg (b : Block) (p t : Int) (m : BlinkManager)
    (h : ∀ r, 0 ≤ b.green_counts r) (q : Int) :
    0 ≤ (b.handle_detection p t m).1.green_counts q := by
  have hp := h p
  have hq := h q
  have hc := h (b.leds.getD (b.current_index + 1) 0)
  unfold Block.handle_detection
  by_cases h1 : b.leds.length ≤ b.current_index
  · rw [if_pos h1]; exact hq
  rw [if_neg h1]
  by_cases h2 : t - (b.processed_leds p).getD 0 < b.per_led_cooldown
  · rw [if_pos h2]; exact hq
  rw [if_neg h2]
  by_cases h3 : p = b.leds.getD b.current_index 0
  · rw [if_pos h3]
    by_cases h4 : t - b.last_correct_detection_time < b.cooldown
    · rw [if_pos h4]; exact hq
    rw [if_neg h4]
    by_cases h5 : b.current_index + 1 < b.leds.length
    · rw [if_pos h5]
      simp only [Block.sweep_processed, updInt, ite_apply]
      split_ifs <;> omega
    · rw [if_neg h5]
      simp only [Block.sweep_processed, updInt, ite_apply]
      split_ifs <;> omega
  · rw [if_neg h3]
    by_cases h6 : b.ignored_leds p = true
    · rw [if_pos h6]; exact hq
    · rw [if_neg h6]; exact hq

/-- `handle_detection` (v1) preserves non-negativity likewise. -/
theorem handle_detection_v1_counts_nonneg (b : Block) (p : Int) (m : BlinkManager)
    (h : ∀ r, 0 ≤ b.green_counts r) (q : Int) :
    0 ≤ (b.handle_detection_v1 p m).1.green_counts q := by
  have hp := h p
  have hq := h q
  have hc := h (b.leds.getD (b.current_index + 1) 0)
  unfold Block.handle_detection_v1
  by_cases h1 : b.leds.length ≤ b.current_index
  · rw [if_pos h1]; exact hq
  rw [if_neg h1]
  by_cases h3 : p = b.leds.getD b.current_index 0
  · rw [if_pos h3]
    by_cases h5 : b.current_index + 1 < b.leds.length
    · rw [if_pos h5]
      simp only [updInt, ite_apply]
      split_ifs <;> omega
    · rw [if_neg h5]
      simp only [updInt, ite_apply]
      split_ifs <;> omega
  · rw [if_neg h3]; exact hq

/-- C10: green counts start at zero, stay non-negative through
`initialize_block` and both versions of `handle_detection` (the
decrement on a correct detection is guarded), and `determine_color`
returns green exactly when the count is positive, off otherwise. -/
theorem green_counts_invariant :
    (∀ (seq : List LedInfo) (q : Int), 0 ≤ (Block.new seq).green_counts q)
    ∧ (∀ (b : Block) (m : BlinkManager) (q : Int), (∀ r, 0 ≤ b.green_counts r) →
        0 ≤ (b.initialize_block m).1.green_counts q)
    ∧ (∀ (b : Block) (p t : Int) (m : BlinkManager) (q : Int), (∀ r, 0 ≤ b.green_counts r) →
        0 ≤ (b.handle_detection p t m).1.green_counts q)
    ∧ (∀ (b : Block) (p : Int) (m : BlinkManager) (q : Int), (∀ r, 0 ≤ b.green_counts r) →
        0 ≤ (b.handle_detection_v1 p m).1.green_counts q)
    ∧ (∀ (b : Block) (q : Int),
        (b.determine_color q = (0, 255, 0) ↔ 0 < b.green_counts q)
        ∧ (b.determine_color q = (0, 0, 0) ↔ ¬ 0 < b.green_counts q)) := by
  refine ⟨fun seq q => le_refl 0,
          fun b m q h => init_loop_counts_nonneg m b.led_sequence 0 b h q,
          fun b p t m q h => handle_detection_counts_nonneg b p t m h q,
          fun b p m q h => handle_detection_v1_counts_nonneg b p m h q,
          fun b q => ?_⟩
  unfold Block.determine_color
  by_cases hpos : 0 < b.green_counts q
  · rw [if_pos hpos]
    constructor
    · exact ⟨fun _ => hpos, fun _ => rfl⟩
    · constructor
      · intro hcontra
        exact absurd hcontra (by decide)
      · intro hcontra
        exact absurd hpos hcontra
  · rw [if_neg hpos]
    constructor
    · constructor
      · intro hcontra
        exact absurd hcontra.symm (by decide)
      · intro hcontra
        exact absurd hcontra hpos
    · exact ⟨fun _ => hpos, fun _ => rfl⟩

/-- Witness for C10 on the concrete block `blk56`. -/
theorem green_counts_invariant_witness :
    0 ≤ (blk56.handle_detection 5 100000 mgrB).1.green_counts 6 :=
  green_counts_invariant.2.2.1 blk56 5 100000 mgrB 6
    (fun r => by by_cases hr : r = 5 <;> simp [blk56, hr])

end LidarGui
